import Mathlib

/-!
Shallow embedding of `src/chart.c` from libxlsxwriter (chart module).

The chart model (`lxw_chart`, `lxw_chart_series`) and every `_chart_write_*`
function are translated directly from the C source.  The external tag-emission
primitives (`lxw_xml_declaration`, `lxw_xml_start_tag`, `lxw_xml_empty_tag`,
`lxw_xml_end_tag`, `lxw_xml_data_element`) are modelled as constructors of an
`XmlEvent` trace: a writer produces the list of events it sends to the sink.
`LXW_PUSH_ATTRIBUTES_INT` renders an integer attribute in decimal, modelled by
`toString`.  Machine integers are modelled as `Nat` with explicit reduction
modulo `2^16` (the `uint16_t` local in `_chart_write_ser`) and `2^32` (the
`uint32_t` arithmetic in `_chart_add_axis_ids`).
-/

/-- One series record: the two strings duplicated from the caller's
descriptor (`series->values.range`, `series->values.sheetname`). -/
structure lxw_chart_series where
  range : String
  sheetname : String
deriving DecidableEq, Repr

/-- The chart model from `chart.h` as used by `chart.c`: numeric id, the two
lazily computed axis ids, the per-assembly series counter and the series
store (the `STAILQ` is modelled as a `List` in insertion order).  Integer
fields are `Nat`; `series_index` is read modulo `2^16` (uint16). -/
structure lxw_chart where
  id : Nat
  axis_id_1 : Nat
  axis_id_2 : Nat
  series_index : Nat
  series : List lxw_chart_series
deriving DecidableEq, Repr

/-- Trace of calls to the xmlwriter primitives (the output sink). -/
inductive XmlEvent where
  | declaration
  | startTag (name : String) (attrs : List (String × String))
  | emptyTag (name : String) (attrs : List (String × String))
  | endTag (name : String)
  | dataElement (name : String) (data : String) (attrs : List (String × String))
deriving DecidableEq, Repr

/-- `lxw_chart_new`: `calloc` zero-initializes every field and the series
list is initialized empty (success path; the allocation-accounting model of
the failure paths is `lxw_chart_new_alloc` below). -/
def lxw_chart_new : lxw_chart :=
  { id := 0, axis_id_1 := 0, axis_id_2 := 0, series_index := 0, series := [] }

/-- `_chart_xml_declaration`. -/
def _chart_xml_declaration : List XmlEvent :=
  [XmlEvent.declaration]

/-- `_chart_write_chart_space`: root tag with the three namespace attributes. -/
def _chart_write_chart_space : List XmlEvent :=
  [XmlEvent.startTag "c:chartSpace"
    [("xmlns:c", "http://schemas.openxmlformats.org/drawingml/2006/chart"),
     ("xmlns:a", "http://schemas.openxmlformats.org/drawingml/2006/main"),
     ("xmlns:r",
      "http://schemas.openxmlformats.org/officeDocument/2006/relationships")]]

/-- `_chart_write_lang`. -/
def _chart_write_lang : List XmlEvent :=
  [XmlEvent.emptyTag "c:lang" [("val", "en-US")]]

/-- `_chart_write_layout`. -/
def _chart_write_layout : List XmlEvent :=
  [XmlEvent.emptyTag "c:layout" []]

/-- `_chart_write_grouping`. -/
def _chart_write_grouping : List XmlEvent :=
  [XmlEvent.emptyTag "c:grouping" [("val", "clustered")]]

/-- `_chart_write_idx`: the `uint16_t index` argument rendered in decimal. -/
def _chart_write_idx (index : Nat) : List XmlEvent :=
  [XmlEvent.emptyTag "c:idx" [("val", toString index)]]

/-- `_chart_write_order`. -/
def _chart_write_order (index : Nat) : List XmlEvent :=
  [XmlEvent.emptyTag "c:order" [("val", toString index)]]

/-- `_chart_add_axis_ids`: `uint32_t chart_id = 50010000 + self->id;
uint32_t axis_count = 1; self->axis_id_1 = chart_id + axis_count;
self->axis_id_2 = self->axis_id_1;` (uint32 arithmetic, hence mod `2^32`). -/
def _chart_add_axis_ids (self : lxw_chart) : lxw_chart :=
  let chart_id := (50010000 + self.id) % 4294967296
  let axis_count := 1
  let a1 := (chart_id + axis_count) % 4294967296
  { self with axis_id_1 := a1, axis_id_2 := a1 }

/-- `_chart_write_axis_id`. -/
def _chart_write_axis_id (axis_id : Nat) : List XmlEvent :=
  [XmlEvent.emptyTag "c:axId" [("val", toString axis_id)]]

/-- `_chart_write_axis_ids`: computes the ids if `axis_id_1` is still zero,
then writes both cached ids. -/
def _chart_write_axis_ids (self : lxw_chart) : lxw_chart × List XmlEvent :=
  let self := if self.axis_id_1 = 0 then _chart_add_axis_ids self else self
  (self, _chart_write_axis_id self.axis_id_1 ++ _chart_write_axis_id self.axis_id_2)

/-- `_chart_write_f`: data element holding the range string. -/
def _chart_write_f (range : String) : List XmlEvent :=
  [XmlEvent.dataElement "c:f" range []]

/-- `_chart_write_num_ref`. -/
def _chart_write_num_ref (range : String) : List XmlEvent :=
  [XmlEvent.startTag "c:numRef" []] ++ _chart_write_f range ++ [XmlEvent.endTag "c:numRef"]

/-- `_chart_write_val`. -/
def _chart_write_val (series : lxw_chart_series) : List XmlEvent :=
  [XmlEvent.startTag "c:val" []] ++ _chart_write_num_ref series.range
    ++ [XmlEvent.endTag "c:val"]

/-- `_chart_write_ser`: `uint16_t index = self->series_index++;` then the
series block.  The uint16 local truncates the counter modulo `2^16`, and the
post-increment stores the wrapped successor. -/
def _chart_write_ser (self : lxw_chart) (series : lxw_chart_series) :
    lxw_chart × List XmlEvent :=
  let index := self.series_index % 65536
  ({ self with series_index := (index + 1) % 65536 },
   [XmlEvent.startTag "c:ser" []] ++ _chart_write_idx index
     ++ _chart_write_order index ++ _chart_write_val series
     ++ [XmlEvent.endTag "c:ser"])

/-- `_chart_write_orientation`. -/
def _chart_write_orientation : List XmlEvent :=
  [XmlEvent.emptyTag "c:orientation" [("val", "minMax")]]

/-- `_chart_write_scaling`. -/
def _chart_write_scaling : List XmlEvent :=
  [XmlEvent.startTag "c:scaling" []] ++ _chart_write_orientation
    ++ [XmlEvent.endTag "c:scaling"]

/-- `_chart_write_axis_pos`. -/
def _chart_write_axis_pos (position : String) : List XmlEvent :=
  [XmlEvent.emptyTag "c:axPos" [("val", position)]]

/-- `_chart_write_tick_lbl_pos`. -/
def _chart_write_tick_lbl_pos : List XmlEvent :=
  [XmlEvent.emptyTag "c:tickLblPos" [("val", "nextTo")]]

/-- `_chart_write_cross_axis`. -/
def _chart_write_cross_axis (axis_id : Nat) : List XmlEvent :=
  [XmlEvent.emptyTag "c:crossAx" [("val", toString axis_id)]]

/-- `_chart_write_crosses`. -/
def _chart_write_crosses : List XmlEvent :=
  [XmlEvent.emptyTag "c:crosses" [("val", "autoZero")]]

/-- `_chart_write_auto`. -/
def _chart_write_auto : List XmlEvent :=
  [XmlEvent.emptyTag "c:auto" [("val", "1")]]

/-- `_chart_write_lbl_algn`. -/
def _chart_write_lbl_algn : List XmlEvent :=
  [XmlEvent.emptyTag "c:lblAlgn" [("val", "ctr")]]

/-- `_chart_write_lbl_offset`. -/
def _chart_write_lbl_offset : List XmlEvent :=
  [XmlEvent.emptyTag "c:lblOffset" [("val", "100")]]

/-- `_chart_write_major_gridlines`. -/
def _chart_write_major_gridlines : List XmlEvent :=
  [XmlEvent.emptyTag "c:majorGridlines" []]

/-- `_chart_write_num_fmt`. -/
def _chart_write_num_fmt : List XmlEvent :=
  [XmlEvent.emptyTag "c:numFmt" [("formatCode", "General"), ("sourceLinked", "1")]]

/-- `_chart_write_cross_between`. -/
def _chart_write_cross_between : List XmlEvent :=
  [XmlEvent.emptyTag "c:crossBetween" [("val", "between")]]

/-- `_chart_write_legend_pos`. -/
def _chart_write_legend_pos : List XmlEvent :=
  [XmlEvent.emptyTag "c:legendPos" [("val", "r")]]

/-- `_chart_write_legend`. -/
def _chart_write_legend : List XmlEvent :=
  [XmlEvent.startTag "c:legend" []] ++ _chart_write_legend_pos
    ++ _chart_write_layout ++ [XmlEvent.endTag "c:legend"]

/-- `_chart_write_plot_vis_only`. -/
def _chart_write_plot_vis_only : List XmlEvent :=
  [XmlEvent.emptyTag "c:plotVisOnly" [("val", "1")]]

/-- `_chart_write_header_footer`. -/
def _chart_write_header_footer : List XmlEvent :=
  [XmlEvent.emptyTag "c:headerFooter" []]

/-- `_chart_write_page_margins`. -/
def _chart_write_page_margins : List XmlEvent :=
  [XmlEvent.emptyTag "c:pageMargins"
    [("b", "0.75"), ("l", "0.7"), ("r", "0.7"), ("t", "0.75"),
     ("header", "0.3"), ("footer", "0.3")]]

/-- `_chart_write_page_setup`. -/
def _chart_write_page_setup : List XmlEvent :=
  [XmlEvent.emptyTag "c:pageSetup" []]

/-- `_chart_write_print_settings`. -/
def _chart_write_print_settings : List XmlEvent :=
  [XmlEvent.startTag "c:printSettings" []] ++ _chart_write_header_footer
    ++ _chart_write_page_margins ++ _chart_write_page_setup
    ++ [XmlEvent.endTag "c:printSettings"]

/-- `_chart_write_cat_axis`: the category axis block, reading the cached
axis ids. -/
def _chart_write_cat_axis (self : lxw_chart) : List XmlEvent :=
  [XmlEvent.startTag "c:catAx" []]
    ++ _chart_write_axis_id self.axis_id_1
    ++ _chart_write_scaling
    ++ _chart_write_axis_pos "l"
    ++ _chart_write_tick_lbl_pos
    ++ _chart_write_cross_axis self.axis_id_2
    ++ _chart_write_crosses
    ++ _chart_write_auto
    ++ _chart_write_lbl_algn
    ++ _chart_write_lbl_offset
    ++ [XmlEvent.endTag "c:catAx"]

/-- `_chart_write_val_ax`: the value axis block. -/
def _chart_write_val_ax (self : lxw_chart) : List XmlEvent :=
  [XmlEvent.startTag "c:valAx" []]
    ++ _chart_write_axis_id self.axis_id_2
    ++ _chart_write_scaling
    ++ _chart_write_axis_pos "b"
    ++ _chart_write_major_gridlines
    ++ _chart_write_num_fmt
    ++ _chart_write_tick_lbl_pos
    ++ _chart_write_cross_axis self.axis_id_1
    ++ _chart_write_crosses
    ++ _chart_write_cross_between
    ++ [XmlEvent.endTag "c:valAx"]

/-- `_chart_write_bar_dir`. -/
def _chart_write_bar_dir : List XmlEvent :=
  [XmlEvent.emptyTag "c:barDir" [("val", "bar")]]

/-- The `STAILQ_FOREACH` loop body of `_chart_write_bar_chart`: write one
`c:ser` block per series, threading the mutated chart state. -/
def _chart_write_series_loop (self : lxw_chart) :
    List lxw_chart_series → lxw_chart × List XmlEvent
  | [] => (self, [])
  | s :: rest =>
    let r := _chart_write_ser self s
    let r2 := _chart_write_series_loop r.1 rest
    (r2.1, r.2 ++ r2.2)

/-- `_chart_write_bar_chart`: barDir, grouping, the series loop, then the
axis-id pair. -/
def _chart_write_bar_chart (self : lxw_chart) : lxw_chart × List XmlEvent :=
  let r := _chart_write_series_loop self self.series
  let r2 := _chart_write_axis_ids r.1
  (r2.1, [XmlEvent.startTag "c:barChart" []] ++ _chart_write_bar_dir
    ++ _chart_write_grouping ++ r.2 ++ r2.2 ++ [XmlEvent.endTag "c:barChart"])

/-- `_chart_write_chart_type`. -/
def _chart_write_chart_type (self : lxw_chart) : lxw_chart × List XmlEvent :=
  _chart_write_bar_chart self

/-- `_chart_write_plot_area`: opens `c:plotArea` and writes layout and the
chart-type block; the close tag is emitted later by `_chart_write_chart`. -/
def _chart_write_plot_area (self : lxw_chart) : lxw_chart × List XmlEvent :=
  let r := _chart_write_chart_type self
  (r.1, [XmlEvent.startTag "c:plotArea" []] ++ _chart_write_layout ++ r.2)

/-- `_chart_write_chart`: plot area, both axes, close of `c:plotArea`,
legend, plotVisOnly. -/
def _chart_write_chart (self : lxw_chart) : lxw_chart × List XmlEvent :=
  let r := _chart_write_plot_area self
  (r.1, [XmlEvent.startTag "c:chart" []] ++ r.2
    ++ _chart_write_cat_axis r.1
    ++ _chart_write_val_ax r.1
    ++ [XmlEvent.endTag "c:plotArea"]
    ++ _chart_write_legend
    ++ _chart_write_plot_vis_only
    ++ [XmlEvent.endTag "c:chart"])

/-- `lxw_chart_assemble_xml_file`: one assembly pass; returns the chart state
after the pass together with the full event trace sent to the sink. -/
def lxw_chart_assemble_xml_file (self : lxw_chart) : lxw_chart × List XmlEvent :=
  let r := _chart_write_chart self
  (r.1, _chart_xml_declaration ++ _chart_write_chart_space ++ _chart_write_lang
    ++ r.2 ++ _chart_write_print_settings ++ [XmlEvent.endTag "c:chartSpace"])

/-- `chart_add_series` on the success path (all allocations succeed): null
descriptor is rejected before any allocation; otherwise the descriptor's
strings are duplicated into a fresh node appended at the tail.
The allocation-accounting embedding of the same function, covering the
failure paths, is `chart_add_series_alloc` below. -/
def chart_add_series (self : lxw_chart) (user_series : Option lxw_chart_series) :
    Int × lxw_chart :=
  match user_series with
  | none => (-1, self)
  | some us =>
    (0, { self with series := self.series ++ [{ range := us.range, sheetname := us.sheetname }] })

/-! ## Derived characterization of one assembly pass -/

/-- Counter value after the series loop: unchanged on an empty list,
otherwise each step stores `(index % 2^16 + 1) % 2^16`. -/
def advSI (si : Nat) : List lxw_chart_series → Nat
  | [] => si
  | _ :: rest => advSI ((si % 65536 + 1) % 65536) rest

/-- The event block `_chart_write_ser` emits for one series with counter
value `index` (already reduced mod `2^16`). -/
def serBlock (range : String) (index : Nat) : List XmlEvent :=
  [XmlEvent.startTag "c:ser" [],
   XmlEvent.emptyTag "c:idx" [("val", toString index)],
   XmlEvent.emptyTag "c:order" [("val", toString index)],
   XmlEvent.startTag "c:val" [],
   XmlEvent.startTag "c:numRef" [],
   XmlEvent.dataElement "c:f" range [],
   XmlEvent.endTag "c:numRef",
   XmlEvent.endTag "c:val",
   XmlEvent.endTag "c:ser"]

/-- Concatenation of the series blocks the loop emits starting from counter
value `si`. -/
def serBlocks (si : Nat) : List lxw_chart_series → List XmlEvent
  | [] => []
  | s :: rest => serBlock s.range (si % 65536) ++ serBlocks ((si % 65536 + 1) % 65536) rest

/-- `axis_id_1` after the pass: computed from the chart id if it was zero,
otherwise the cached value. -/
def ensuredA1 (c : lxw_chart) : Nat :=
  if c.axis_id_1 = 0 then ((50010000 + c.id) % 4294967296 + 1) % 4294967296
  else c.axis_id_1

/-- `axis_id_2` after the pass. -/
def ensuredA2 (c : lxw_chart) : Nat :=
  if c.axis_id_1 = 0 then ensuredA1 c else c.axis_id_2

/-- The fixed event prefix of every assembled document, up to and including
the `c:grouping` tag. -/
def docHead : List XmlEvent :=
  [XmlEvent.declaration,
   XmlEvent.startTag "c:chartSpace"
     [("xmlns:c", "http://schemas.openxmlformats.org/drawingml/2006/chart"),
      ("xmlns:a", "http://schemas.openxmlformats.org/drawingml/2006/main"),
      ("xmlns:r",
       "http://schemas.openxmlformats.org/officeDocument/2006/relationships")],
   XmlEvent.emptyTag "c:lang" [("val", "en-US")],
   XmlEvent.startTag "c:chart" [],
   XmlEvent.startTag "c:plotArea" [],
   XmlEvent.emptyTag "c:layout" [],
   XmlEvent.startTag "c:barChart" [],
   XmlEvent.emptyTag "c:barDir" [("val", "bar")],
   XmlEvent.emptyTag "c:grouping" [("val", "clustered")]]

/-- The event suffix of every assembled document after the series blocks,
parameterized by the two axis ids in force during the pass. -/
def docTail (a1 a2 : Nat) : List XmlEvent :=
  [XmlEvent.emptyTag "c:axId" [("val", toString a1)],
   XmlEvent.emptyTag "c:axId" [("val", toString a2)],
   XmlEvent.endTag "c:barChart",
   XmlEvent.startTag "c:catAx" [],
   XmlEvent.emptyTag "c:axId" [("val", toString a1)],
   XmlEvent.startTag "c:scaling" [],
   XmlEvent.emptyTag "c:orientation" [("val", "minMax")],
   XmlEvent.endTag "c:scaling",
   XmlEvent.emptyTag "c:axPos" [("val", "l")],
   XmlEvent.emptyTag "c:tickLblPos" [("val", "nextTo")],
   XmlEvent.emptyTag "c:crossAx" [("val", toString a2)],
   XmlEvent.emptyTag "c:crosses" [("val", "autoZero")],
   XmlEvent.emptyTag "c:auto" [("val", "1")],
   XmlEvent.emptyTag "c:lblAlgn" [("val", "ctr")],
   XmlEvent.emptyTag "c:lblOffset" [("val", "100")],
   XmlEvent.endTag "c:catAx",
   XmlEvent.startTag "c:valAx" [],
   XmlEvent.emptyTag "c:axId" [("val", toString a2)],
   XmlEvent.startTag "c:scaling" [],
   XmlEvent.emptyTag "c:orientation" [("val", "minMax")],
   XmlEvent.endTag "c:scaling",
   XmlEvent.emptyTag "c:axPos" [("val", "b")],
   XmlEvent.emptyTag "c:majorGridlines" [],
   XmlEvent.emptyTag "c:numFmt" [("formatCode", "General"), ("sourceLinked", "1")],
   XmlEvent.emptyTag "c:tickLblPos" [("val", "nextTo")],
   XmlEvent.emptyTag "c:crossAx" [("val", toString a1)],
   XmlEvent.emptyTag "c:crosses" [("val", "autoZero")],
   XmlEvent.emptyTag "c:crossBetween" [("val", "between")],
   XmlEvent.endTag "c:valAx",
   XmlEvent.endTag "c:plotArea",
   XmlEvent.startTag "c:legend" [],
   XmlEvent.emptyTag "c:legendPos" [("val", "r")],
   XmlEvent.emptyTag "c:layout" [],
   XmlEvent.endTag "c:legend",
   XmlEvent.emptyTag "c:plotVisOnly" [("val", "1")],
   XmlEvent.endTag "c:chart",
   XmlEvent.startTag "c:printSettings" [],
   XmlEvent.emptyTag "c:headerFooter" [],
   XmlEvent.emptyTag "c:pageMargins"
     [("b", "0.75"), ("l", "0.7"), ("r", "0.7"), ("t", "0.75"),
      ("header", "0.3"), ("footer", "0.3")],
   XmlEvent.emptyTag "c:pageSetup" [],
   XmlEvent.endTag "c:printSettings",
   XmlEvent.endTag "c:chartSpace"]

lemma series_loop_eq (l : List lxw_chart_series) (self : lxw_chart) :
    _chart_write_series_loop self l =
      ({ self with series_index := advSI self.series_index l },
       serBlocks self.series_index l) := by
  induction l generalizing self with
  | nil =>
    cases self
    rfl
  | cons s rest ih =>
    cases self
    simp only [_chart_write_series_loop, _chart_write_ser, ih, advSI, serBlocks]
    rfl

lemma assemble_eq (c : lxw_chart) :
    lxw_chart_assemble_xml_file c =
      ({ c with series_index := advSI c.series_index c.series,
                axis_id_1 := ensuredA1 c, axis_id_2 := ensuredA2 c },
       docHead ++ serBlocks c.series_index c.series
         ++ docTail (ensuredA1 c) (ensuredA2 c)) := by
  cases c with
  | mk id a1 a2 si ser =>
    simp only [lxw_chart_assemble_xml_file, _chart_write_chart,
      _chart_write_plot_area, _chart_write_chart_type, _chart_write_bar_chart,
      series_loop_eq, _chart_write_axis_ids, _chart_add_axis_ids,
      ensuredA1, ensuredA2]
    by_cases h : a1 = 0 <;>
      simp only [h, if_true, if_false, reduceIte] <;>
      simp [docHead, docTail, _chart_xml_declaration, _chart_write_chart_space,
        _chart_write_lang, _chart_write_print_settings, _chart_write_header_footer,
        _chart_write_page_margins, _chart_write_page_setup, _chart_write_legend,
        _chart_write_legend_pos, _chart_write_layout, _chart_write_plot_vis_only,
        _chart_write_cat_axis, _chart_write_val_ax, _chart_write_axis_id,
        _chart_write_scaling, _chart_write_orientation, _chart_write_axis_pos,
        _chart_write_tick_lbl_pos, _chart_write_cross_axis, _chart_write_crosses,
        _chart_write_auto, _chart_write_lbl_algn, _chart_write_lbl_offset,
        _chart_write_major_gridlines, _chart_write_num_fmt,
        _chart_write_cross_between, _chart_write_bar_dir, _chart_write_grouping]

/-! ## Attribute extractors over event traces -/

/-- The `val` attributes of the `c:idx` events of a trace, in order. -/
def idxVals (evs : List XmlEvent) : List String :=
  evs.filterMap (fun e => match e with
    | XmlEvent.emptyTag "c:idx" [("val", v)] => some v
    | _ => none)

/-- The `val` attributes of the `c:order` events of a trace, in order. -/
def orderVals (evs : List XmlEvent) : List String :=
  evs.filterMap (fun e => match e with
    | XmlEvent.emptyTag "c:order" [("val", v)] => some v
    | _ => none)

/-- The `val` attributes of the `c:axId` events of a trace, in order. -/
def axIdVals (evs : List XmlEvent) : List String :=
  evs.filterMap (fun e => match e with
    | XmlEvent.emptyTag "c:axId" [("val", v)] => some v
    | _ => none)

/-- The `val` attributes of the `c:crossAx` events of a trace, in order. -/
def crossAxVals (evs : List XmlEvent) : List String :=
  evs.filterMap (fun e => match e with
    | XmlEvent.emptyTag "c:crossAx" [("val", v)] => some v
    | _ => none)

/-- The data payloads of the `c:f` events of a trace, in order. -/
def fVals (evs : List XmlEvent) : List String :=
  evs.filterMap (fun e => match e with
    | XmlEvent.dataElement "c:f" d [] => some d
    | _ => none)

lemma idxVals_append (a b : List XmlEvent) :
    idxVals (a ++ b) = idxVals a ++ idxVals b := List.filterMap_append a b _

lemma orderVals_append (a b : List XmlEvent) :
    orderVals (a ++ b) = orderVals a ++ orderVals b := List.filterMap_append a b _

lemma axIdVals_append (a b : List XmlEvent) :
    axIdVals (a ++ b) = axIdVals a ++ axIdVals b := List.filterMap_append a b _

lemma crossAxVals_append (a b : List XmlEvent) :
    crossAxVals (a ++ b) = crossAxVals a ++ crossAxVals b := List.filterMap_append a b _

lemma fVals_append (a b : List XmlEvent) :
    fVals (a ++ b) = fVals a ++ fVals b := List.filterMap_append a b _

lemma idxVals_docHead : idxVals docHead = [] := rfl

lemma idxVals_docTail (a1 a2 : Nat) : idxVals (docTail a1 a2) = [] := rfl

lemma orderVals_docHead : orderVals docHead = [] := rfl

lemma orderVals_docTail (a1 a2 : Nat) : orderVals (docTail a1 a2) = [] := rfl

lemma fVals_docHead : fVals docHead = [] := rfl

lemma fVals_docTail (a1 a2 : Nat) : fVals (docTail a1 a2) = [] := rfl

lemma axIdVals_docHead : axIdVals docHead = [] := rfl

lemma axIdVals_docTail (a1 a2 : Nat) :
    axIdVals (docTail a1 a2) = [toString a1, toString a2, toString a1, toString a2] := rfl

lemma crossAxVals_docHead : crossAxVals docHead = [] := rfl

lemma crossAxVals_docTail (a1 a2 : Nat) :
    crossAxVals (docTail a1 a2) = [toString a2, toString a1] := rfl

lemma idxVals_serBlock (range : String) (index : Nat) :
    idxVals (serBlock range index) = [toString index] := rfl

lemma idxVals_serBlocks (si : Nat) (l : List lxw_chart_series) :
    idxVals (serBlocks si l) =
      (List.range l.length).map (fun i => toString ((si + i) % 65536)) := by
  induction l generalizing si with
  | nil => rfl
  | cons s rest ih =>
    simp only [serBlocks, idxVals_append, idxVals_serBlock, ih, List.length_cons,
      List.range_succ_eq_map, List.map_cons, List.map_map]
    refine List.cons_eq_cons.mpr ⟨by rw [Nat.add_zero], ?_⟩
    refine List.map_congr_left (fun i _ => ?_)
    simp only [Function.comp_apply]
    congr 1
    have h1 : ((si % 65536 + 1) % 65536 + i) % 65536 = (si % 65536 + 1 + i) % 65536 :=
      Nat.mod_add_mod _ _ _
    have h2 : (si % 65536 + (1 + i)) % 65536 = (si + (1 + i)) % 65536 :=
      Nat.mod_add_mod _ _ _
    rw [h1, Nat.add_assoc, h2]
    congr 1
    omega

lemma orderVals_serBlocks (si : Nat) (l : List lxw_chart_series) :
    orderVals (serBlocks si l) = idxVals (serBlocks si l) := by
  induction l generalizing si with
  | nil => rfl
  | cons s rest ih =>
    simp only [serBlocks, orderVals_append, idxVals_append, ih]
    rfl

lemma fVals_serBlocks (si : Nat) (l : List lxw_chart_series) :
    fVals (serBlocks si l) = l.map lxw_chart_series.range := by
  induction l generalizing si with
  | nil => rfl
  | cons s rest ih =>
    simp only [serBlocks, fVals_append, ih, List.map_cons]
    rfl

lemma axIdVals_serBlocks (si : Nat) (l : List lxw_chart_series) :
    axIdVals (serBlocks si l) = [] := by
  induction l generalizing si with
  | nil => rfl
  | cons s rest ih =>
    simp only [serBlocks, axIdVals_append, ih]
    rfl

lemma crossAxVals_serBlocks (si : Nat) (l : List lxw_chart_series) :
    crossAxVals (serBlocks si l) = [] := by
  induction l generalizing si with
  | nil => rfl
  | cons s rest ih =>
    simp only [serBlocks, crossAxVals_append, ih]
    rfl

lemma idxVals_assemble (c : lxw_chart) :
    idxVals (lxw_chart_assemble_xml_file c).2 =
      (List.range c.series.length).map
        (fun i => toString ((c.series_index + i) % 65536)) := by
  rw [assemble_eq]
  simp [idxVals_append, idxVals_docHead, idxVals_docTail, idxVals_serBlocks]

lemma orderVals_assemble (c : lxw_chart) :
    orderVals (lxw_chart_assemble_xml_file c).2 =
      idxVals (lxw_chart_assemble_xml_file c).2 := by
  rw [assemble_eq]
  simp [idxVals_append, orderVals_append, idxVals_docHead, idxVals_docTail,
    orderVals_docHead, orderVals_docTail, orderVals_serBlocks]

lemma fVals_assemble (c : lxw_chart) :
    fVals (lxw_chart_assemble_xml_file c).2 = c.series.map lxw_chart_series.range := by
  rw [assemble_eq]
  simp [fVals_append, fVals_docHead, fVals_docTail, fVals_serBlocks]

lemma axIdVals_assemble (c : lxw_chart) :
    axIdVals (lxw_chart_assemble_xml_file c).2 =
      [toString (ensuredA1 c), toString (ensuredA2 c),
       toString (ensuredA1 c), toString (ensuredA2 c)] := by
  rw [assemble_eq]
  simp [axIdVals_append, axIdVals_docHead, axIdVals_docTail, axIdVals_serBlocks]

lemma crossAxVals_assemble (c : lxw_chart) :
    crossAxVals (lxw_chart_assemble_xml_file c).2 =
      [toString (ensuredA2 c), toString (ensuredA1 c)] := by
  rw [assemble_eq]
  simp [crossAxVals_append, crossAxVals_docHead, crossAxVals_docTail,
    crossAxVals_serBlocks]

/-- The caller pattern of the spec's control flow: a sequence of
`chart_add_series` calls, each with a non-null descriptor. -/
def addAllSeries (c : lxw_chart) : List lxw_chart_series → lxw_chart
  | [] => c
  | d :: rest => addAllSeries (chart_add_series c (some d)).2 rest

lemma addAllSeries_eq (descs : List lxw_chart_series) (c : lxw_chart) :
    addAllSeries c descs = { c with series := c.series ++ descs } := by
  induction descs generalizing c with
  | nil =>
    cases c
    simp [addAllSeries]
  | cons d rest ih =>
    simp only [addAllSeries, chart_add_series, ih]
    cases c
    cases d
    simp

lemma advSI_eq (l : List lxw_chart_series) (si : Nat) :
    advSI si l = if l = [] then si else (si + l.length) % 65536 := by
  induction l generalizing si with
  | nil => rfl
  | cons s rest ih =>
    simp only [advSI, ih]
    by_cases h : rest = []
    · subst h
      rw [if_neg (List.cons_ne_nil s [])]
      simp only [if_true, reduceIte, List.length_cons, List.length_nil]
      omega
    · rw [if_neg h, if_neg (List.cons_ne_nil s rest)]
      simp only [List.length_cons]
      omega

/-! ## Spec-side document schema (for the refinement claim about tag order) -/

/-- Spec-side definition, following the words of the spec's assembly schema
(§4.4): one series block holding, in order, the zero-based index, the
zero-based order (the identical value), and the value reference wrapping the
range string in a numeric-reference/formula pair. -/
def specSerBlock (range : String) (index : Nat) : List XmlEvent :=
  [XmlEvent.startTag "c:ser" [],
   XmlEvent.emptyTag "c:idx" [("val", toString index)],
   XmlEvent.emptyTag "c:order" [("val", toString index)],
   XmlEvent.startTag "c:val" [],
   XmlEvent.startTag "c:numRef" [],
   XmlEvent.dataElement "c:f" range [],
   XmlEvent.endTag "c:numRef",
   XmlEvent.endTag "c:val",
   XmlEvent.endTag "c:ser"]

/-- Spec-side definition, following the words of the spec's assembly schema
(§4.4 items 1-4 up to the grouping tag): XML declaration, root container
carrying the three namespace declarations (the spec fixes their number, not
their URIs, so they are a parameter), language tag `en-US`, chart container,
plot-area container, empty layout, bar-chart block opening with direction
`bar` and grouping `clustered`. -/
def specDocHead (ns : List (String × String)) : List XmlEvent :=
  [XmlEvent.declaration,
   XmlEvent.startTag "c:chartSpace" ns,
   XmlEvent.emptyTag "c:lang" [("val", "en-US")],
   XmlEvent.startTag "c:chart" [],
   XmlEvent.startTag "c:plotArea" [],
   XmlEvent.emptyTag "c:layout" [],
   XmlEvent.startTag "c:barChart" [],
   XmlEvent.emptyTag "c:barDir" [("val", "bar")],
   XmlEvent.emptyTag "c:grouping" [("val", "clustered")]]

/-- Spec-side definition, following the words of the spec's assembly schema
(§4.4 items 4-6 after the series blocks): the two axis-id references, the
category axis block (axis id, scaling `minMax`, position `l`, label position
`nextTo`, cross-axis reference, crossing `autoZero`, auto `1`, alignment
`ctr`, offset `100`), the value axis block (axis id, scaling, position `b`,
gridlines, number format `General` source-linked, label position, cross-axis
reference, crossing, cross-between `between`), close of plot area, legend
(position `r`, layout), plot-visibility flag `1`, close of chart, print
settings (header/footer, the fixed page margins, page setup), close of the
root container. -/
def specDocTail (a1 a2 : Nat) : List XmlEvent :=
  [XmlEvent.emptyTag "c:axId" [("val", toString a1)],
   XmlEvent.emptyTag "c:axId" [("val", toString a2)],
   XmlEvent.endTag "c:barChart",
   XmlEvent.startTag "c:catAx" [],
   XmlEvent.emptyTag "c:axId" [("val", toString a1)],
   XmlEvent.startTag "c:scaling" [],
   XmlEvent.emptyTag "c:orientation" [("val", "minMax")],
   XmlEvent.endTag "c:scaling",
   XmlEvent.emptyTag "c:axPos" [("val", "l")],
   XmlEvent.emptyTag "c:tickLblPos" [("val", "nextTo")],
   XmlEvent.emptyTag "c:crossAx" [("val", toString a2)],
   XmlEvent.emptyTag "c:crosses" [("val", "autoZero")],
   XmlEvent.emptyTag "c:auto" [("val", "1")],
   XmlEvent.emptyTag "c:lblAlgn" [("val", "ctr")],
   XmlEvent.emptyTag "c:lblOffset" [("val", "100")],
   XmlEvent.endTag "c:catAx",
   XmlEvent.startTag "c:valAx" [],
   XmlEvent.emptyTag "c:axId" [("val", toString a2)],
   XmlEvent.startTag "c:scaling" [],
   XmlEvent.emptyTag "c:orientation" [("val", "minMax")],
   XmlEvent.endTag "c:scaling",
   XmlEvent.emptyTag "c:axPos" [("val", "b")],
   XmlEvent.emptyTag "c:majorGridlines" [],
   XmlEvent.emptyTag "c:numFmt" [("formatCode", "General"), ("sourceLinked", "1")],
   XmlEvent.emptyTag "c:tickLblPos" [("val", "nextTo")],
   XmlEvent.emptyTag "c:crossAx" [("val", toString a1)],
   XmlEvent.emptyTag "c:crosses" [("val", "autoZero")],
   XmlEvent.emptyTag "c:crossBetween" [("val", "between")],
   XmlEvent.endTag "c:valAx",
   XmlEvent.endTag "c:plotArea",
   XmlEvent.startTag "c:legend" [],
   XmlEvent.emptyTag "c:legendPos" [("val", "r")],
   XmlEvent.emptyTag "c:layout" [],
   XmlEvent.endTag "c:legend",
   XmlEvent.emptyTag "c:plotVisOnly" [("val", "1")],
   XmlEvent.endTag "c:chart",
   XmlEvent.startTag "c:printSettings" [],
   XmlEvent.emptyTag "c:headerFooter" [],
   XmlEvent.emptyTag "c:pageMargins"
     [("b", "0.75"), ("l", "0.7"), ("r", "0.7"), ("t", "0.75"),
      ("header", "0.3"), ("footer", "0.3")],
   XmlEvent.emptyTag "c:pageSetup" [],
   XmlEvent.endTag "c:printSettings",
   XmlEvent.endTag "c:chartSpace"]

/-- Spec-side definition: the complete document of the spec's assembly schema,
head, one block per series in order, tail. -/
def specChartDocument (ns : List (String × String)) (sd : List (String × Nat))
    (a1 a2 : Nat) : List XmlEvent :=
  specDocHead ns ++ (sd.flatMap fun p => specSerBlock p.1 p.2) ++ specDocTail a1 a2

/-- The (range, index) pairs realized by the series loop from counter `si`. -/
def sdOf (si : Nat) : List lxw_chart_series → List (String × Nat)
  | [] => []
  | s :: rest => (s.range, si % 65536) :: sdOf ((si % 65536 + 1) % 65536) rest

lemma serBlocks_eq_spec (l : List lxw_chart_series) (si : Nat) :
    serBlocks si l = (sdOf si l).flatMap fun p => specSerBlock p.1 p.2 := by
  induction l generalizing si with
  | nil => rfl
  | cons s rest ih =>
    simp only [serBlocks, sdOf, List.flatMap_cons, ih]
    rfl

lemma sdOf_map_fst (l : List lxw_chart_series) (si : Nat) :
    (sdOf si l).map Prod.fst = l.map lxw_chart_series.range := by
  induction l generalizing si with
  | nil => rfl
  | cons s rest ih =>
    simp only [sdOf, List.map_cons, ih]

/-! ## Allocation-accounting embedding (lifecycle and error paths)

The same C functions, re-embedded with an explicit allocator: each heap
object the module ever allocates gets an `AllocTag`, allocator outcomes are
supplied as booleans, and every function also returns the list of tags it
allocated or passed to the C `free`.  `free(NULL)` releases nothing.  The
stored strings become `Option String` so that a NULL pointer produced by a
failed `lxw_strdup` is representable. -/

/-- Identity of one heap object allocated by the chart module: the
`lxw_chart` struct, the series-list container, or (for the `i`-th series
node appended) the node itself and its two duplicated strings. -/
inductive AllocTag where
  | chartStruct
  | seriesListStruct
  | seriesNode (i : Nat)
  | rangeStr (i : Nat)
  | sheetnameStr (i : Nat)
deriving DecidableEq, Repr

/-- A series node on the heap: pointers may be NULL after a failed
duplication. -/
structure AllocSeries where
  range : Option String
  sheetname : Option String
deriving DecidableEq, Repr

/-- The chart as the allocation model sees it: `series` is `none` when the
series-list `calloc` failed (the scalar fields play no part in the
lifecycle functions and are carried by `lxw_chart`). -/
structure AllocChart where
  series : Option (List AllocSeries)
deriving DecidableEq, Repr

/-- `lxw_strdup` (external duplication utility): returns a copy on success
and NULL on allocation failure. -/
def lxw_strdup (ok : Bool) (s : String) : Option String :=
  if ok then some s else none

/-- `lxw_chart_free`, as the list of heap objects it passes to `free`, in
call order: no-op on a NULL chart; otherwise, for each series node, its two
strings (a NULL string frees nothing), then the series-list container, then
the chart struct.  The series node itself is never freed — exactly as in
the source, whose loop frees only `series->values.range` and
`series->values.sheetname`. -/
def lxw_chart_free_nodes (i : Nat) : List AllocSeries → List AllocTag
  | [] => []
  | s :: rest =>
    ((s.range.map fun _ => AllocTag.rangeStr i).toList
      ++ (s.sheetname.map fun _ => AllocTag.sheetnameStr i).toList)
      ++ lxw_chart_free_nodes (i + 1) rest

/-- See `lxw_chart_free_nodes`: the full `lxw_chart_free`. -/
def lxw_chart_free_frees : Option AllocChart → List AllocTag
  | none => []
  | some chart =>
    (match chart.series with
     | none => []
     | some l => lxw_chart_free_nodes 0 l ++ [AllocTag.seriesListStruct])
      ++ [AllocTag.chartStruct]

/-- `lxw_chart_new` with explicit allocator outcomes for the two `calloc`
calls.  Returns the chart (or NULL), the allocations performed, and the
frees performed by the `mem_error` path (which calls `lxw_chart_free`). -/
def lxw_chart_new_alloc (chartOk listOk : Bool) :
    Option AllocChart × List AllocTag × List AllocTag :=
  if chartOk then
    if listOk then
      (some { series := some [] }, [AllocTag.chartStruct, AllocTag.seriesListStruct], [])
    else
      (none, [AllocTag.chartStruct], lxw_chart_free_frees (some { series := none }))
  else
    (none, [], lxw_chart_free_frees none)

/-- `chart_add_series` with explicit allocator outcomes (`callocOk` for the
node `calloc`, `rangeOk`/`sheetOk` for the two `lxw_strdup` calls).  Returns
the C return value, the updated chart, and the allocations performed.  The
source checks only the `calloc` (`RETURN_ON_MEM_ERROR`); the two `lxw_strdup`
results are stored unchecked and the node is appended regardless. -/
def chart_add_series_alloc (callocOk rangeOk sheetOk : Bool) (self : AllocChart)
    (user_series : Option lxw_chart_series) : Int × AllocChart × List AllocTag :=
  match user_series with
  | none => (-1, self, [])
  | some us =>
    if callocOk then
      match self.series with
      | some l =>
        (0,
         { series := some (l ++ [{ range := lxw_strdup rangeOk us.range,
                                   sheetname := lxw_strdup sheetOk us.sheetname }]) },
         [AllocTag.seriesNode l.length]
           ++ (if rangeOk then [AllocTag.rangeStr l.length] else [])
           ++ (if sheetOk then [AllocTag.sheetnameStr l.length] else []))
      | none =>
        -- here the C code would dereference a NULL series list (undefined
        -- behavior); unreachable for charts built by lxw_chart_new
        (0, self, [AllocTag.seriesNode 0])
    else (-1, self, [])

/-! ## Claim theorems -/

/-- Concrete chart for the reassembly experiment: id 1, one series. -/
def reassemblyChart : lxw_chart :=
  addAllSeries { lxw_chart_new with id := 1 }
    [{ range := "Sheet1!$A$1:$A$3", sheetname := "Sheet1" }]

/-- C1: the claim states the series-index counter is reset to zero at the
start of every assembly pass so that re-assembling an unchanged chart is
byte-identical.  The code never resets `series_index`: after the first pass
the counter is 1, the second pass numbers its only series block 1 instead of
0, and the two passes' outputs differ. -/
theorem chart_reassembly_continues_numbering :
    idxVals (lxw_chart_assemble_xml_file reassemblyChart).2 = ["0"] ∧
    (lxw_chart_assemble_xml_file reassemblyChart).1.series_index = 1 ∧
    idxVals (lxw_chart_assemble_xml_file
      (lxw_chart_assemble_xml_file reassemblyChart).1).2 = ["1"] ∧
    (lxw_chart_assemble_xml_file
        (lxw_chart_assemble_xml_file reassemblyChart).1).2
      ≠ (lxw_chart_assemble_xml_file reassemblyChart).2 := by
  decide

/-- C2: a single assembly pass over any chart model emits exactly the
spec's schema: the spec-side document skeleton (fixed nesting and sibling
order, all fixed literal attribute values), with some three namespace
declarations on the root, one series block per stored series carrying that
series's range string in order, and some axis-id pair. -/
theorem chart_assemble_matches_spec_schema (c : lxw_chart) :
    ∃ ns sd a1 a2, ns.length = 3 ∧
      (lxw_chart_assemble_xml_file c).2 = specChartDocument ns sd a1 a2 ∧
      sd.map Prod.fst = c.series.map lxw_chart_series.range := by
  refine ⟨[("xmlns:c", "http://schemas.openxmlformats.org/drawingml/2006/chart"),
           ("xmlns:a", "http://schemas.openxmlformats.org/drawingml/2006/main"),
           ("xmlns:r",
            "http://schemas.openxmlformats.org/officeDocument/2006/relationships")],
          sdOf c.series_index c.series, ensuredA1 c, ensuredA2 c, rfl, ?_,
          sdOf_map_fst c.series c.series_index⟩
  rw [assemble_eq]
  show docHead ++ serBlocks c.series_index c.series
      ++ docTail (ensuredA1 c) (ensuredA2 c) = _
  rw [serBlocks_eq_spec]
  rfl

/-- C3 (amended): adding N series to a fresh chart yields exactly those N
series in insertion order, and the first assembly pass emits one series
block per series in that order, the i-th block carrying index and order
value `i % 2^16` (the identical value, taken from the same uint16 counter)
and wrapping that series's range string; in particular the value is `i`
for every `i < 65536`. -/
theorem chart_add_series_indexing_mod_65536 (descs : List lxw_chart_series) :
    (addAllSeries lxw_chart_new descs).series = descs ∧
    idxVals (lxw_chart_assemble_xml_file (addAllSeries lxw_chart_new descs)).2
      = (List.range descs.length).map (fun i => toString (i % 65536)) ∧
    orderVals (lxw_chart_assemble_xml_file (addAllSeries lxw_chart_new descs)).2
      = idxVals (lxw_chart_assemble_xml_file (addAllSeries lxw_chart_new descs)).2 ∧
    fVals (lxw_chart_assemble_xml_file (addAllSeries lxw_chart_new descs)).2
      = descs.map lxw_chart_series.range := by
  rw [addAllSeries_eq]
  refine ⟨by simp [lxw_chart_new], ?_, orderVals_assemble _, by simp [fVals_assemble, lxw_chart_new]⟩
  rw [idxVals_assemble]
  simp [lxw_chart_new]

/-- C3 (counterexample to the claim as stated): with N = 65537 series added
to a fresh chart, the series block at position 65536 carries index value
"0" (the uint16 counter wrapped), not "65536" as the claim's `for all N`
requires. -/
theorem chart_series_index_wraps_at_65536 :
    (idxVals (lxw_chart_assemble_xml_file (addAllSeries lxw_chart_new
        (List.replicate 65537 { range := "Sheet1!$A$1:$A$3", sheetname := "Sheet1" }))).2)[65536]?
      = some "0" ∧
    some "0" ≠ some (toString (65536 : Nat)) := by
  constructor
  · rw [addAllSeries_eq, idxVals_assemble]
    simp only [lxw_chart_new, List.nil_append, List.length_replicate]
    rw [List.getElem?_map, List.getElem?_range (by norm_num)]
    norm_num
    decide
  · decide

/-- Concrete charts for the axis-id witnesses: same id, different other
fields. -/
def axChartA : lxw_chart :=
  { id := 1, axis_id_1 := 0, axis_id_2 := 0, series_index := 0, series := [] }

/-- See `axChartA`. -/
def axChartB : lxw_chart :=
  { id := 1, axis_id_1 := 7, axis_id_2 := 9, series_index := 5, series := [] }

/-- C4: axis-id allocation is a pure function of the chart id:
`axis_id_1 = 50010000 + id + 1` (whenever that sum fits in the uint32
arithmetic the code uses) with `axis_id_2` set equal to it; two charts with
the same id receive the same pair; and in the emitted document the category
axis's cross-axis reference (2nd `c:crossAx`... index 1) equals the value
axis's own id (4th `c:axId`, index 3) read the other way round: the catAx
cross-reference (index 0) equals the valAx own id (index 3), and the valAx
cross-reference (index 1) equals the catAx own id (index 2). -/
theorem chart_axis_id_allocation_deterministic (c c2 : lxw_chart)
    (h : 50010000 + c.id + 1 < 4294967296) (hid : c2.id = c.id) :
    (_chart_add_axis_ids c).axis_id_1 = 50010000 + c.id + 1 ∧
    (_chart_add_axis_ids c).axis_id_2 = (_chart_add_axis_ids c).axis_id_1 ∧
    (_chart_add_axis_ids c2).axis_id_1 = (_chart_add_axis_ids c).axis_id_1 ∧
    (_chart_add_axis_ids c2).axis_id_2 = (_chart_add_axis_ids c).axis_id_2 ∧
    (crossAxVals (lxw_chart_assemble_xml_file c).2)[0]?
      = (axIdVals (lxw_chart_assemble_xml_file c).2)[3]? ∧
    (crossAxVals (lxw_chart_assemble_xml_file c).2)[1]?
      = (axIdVals (lxw_chart_assemble_xml_file c).2)[2]? := by
  refine ⟨?_, ?_, ?_, ?_, ?_, ?_⟩
  · simp only [_chart_add_axis_ids]
    omega
  · simp only [_chart_add_axis_ids]
  · simp only [_chart_add_axis_ids, hid]
  · simp only [_chart_add_axis_ids, hid]
  · rw [crossAxVals_assemble, axIdVals_assemble]
    rfl
  · rw [crossAxVals_assemble, axIdVals_assemble]
    rfl

/-- C4 witness: the theorem applied at two concrete charts sharing id 1. -/
theorem chart_axis_id_allocation_deterministic_witness :
    (_chart_add_axis_ids axChartA).axis_id_1 = 50010000 + axChartA.id + 1 ∧
    (_chart_add_axis_ids axChartA).axis_id_2 = (_chart_add_axis_ids axChartA).axis_id_1 ∧
    (_chart_add_axis_ids axChartB).axis_id_1 = (_chart_add_axis_ids axChartA).axis_id_1 ∧
    (_chart_add_axis_ids axChartB).axis_id_2 = (_chart_add_axis_ids axChartA).axis_id_2 ∧
    (crossAxVals (lxw_chart_assemble_xml_file axChartA).2)[0]?
      = (axIdVals (lxw_chart_assemble_xml_file axChartA).2)[3]? ∧
    (crossAxVals (lxw_chart_assemble_xml_file axChartA).2)[1]?
      = (axIdVals (lxw_chart_assemble_xml_file axChartA).2)[2]? :=
  chart_axis_id_allocation_deterministic axChartA axChartB (by decide) (by decide)

/-- C5: the claim states that an allocation failure during add-series is
reported and leaves the model unchanged.  The code checks only the node
`calloc`; a failed `lxw_strdup` of the range is stored unchecked: the call
returns 0 (success) and appends a half-initialized node (NULL range) to the
collection. -/
theorem chart_add_series_strdup_failure_inserts_partial_node :
    chart_add_series_alloc true false true { series := some [] }
        (some { range := "Sheet1!$A$1:$A$3", sheetname := "Sheet1" })
      = (0, { series := some [{ range := none, sheetname := some "Sheet1" }] },
         [AllocTag.seriesNode 0, AllocTag.sheetnameStr 0]) := by
  rfl

/-- C6: a null series descriptor is rejected before anything else happens:
the return value is -1, the chart (both in the functional and in the
allocation model) is unchanged, and no allocation is performed — for every
allocator behavior. -/
theorem chart_add_series_null_descriptor_rejected (a b k : Bool)
    (ac : AllocChart) (c : lxw_chart) :
    chart_add_series_alloc a b k ac none = (-1, ac, []) ∧
    chart_add_series c none = (-1, c) := by
  exact ⟨rfl, rfl⟩

/-- Concrete chart whose axis ids are already computed (id 1, cached pair
50010002). -/
def axChartC : lxw_chart :=
  { id := 1, axis_id_1 := 50010002, axis_id_2 := 50010002, series_index := 0,
    series := [] }

/-- C7: once the axis-id pair has been computed for a chart (the cached
fields hold the value `_chart_add_axis_ids` produces for its id), every
later request — the explicit `_chart_write_axis_ids` or a whole assembly
pass — leaves the cached pair unchanged and emits that same pair at every
axis-id reference of the document (the four `c:axId` and two `c:crossAx`
values). -/
theorem chart_axis_ids_cached_idempotent (c : lxw_chart)
    (h1 : c.axis_id_1 = ((50010000 + c.id) % 4294967296 + 1) % 4294967296)
    (h2 : c.axis_id_2 = c.axis_id_1) :
    _chart_write_axis_ids c =
      (c, [XmlEvent.emptyTag "c:axId" [("val", toString c.axis_id_1)],
           XmlEvent.emptyTag "c:axId" [("val", toString c.axis_id_2)]]) ∧
    (lxw_chart_assemble_xml_file c).1.axis_id_1 = c.axis_id_1 ∧
    (lxw_chart_assemble_xml_file c).1.axis_id_2 = c.axis_id_2 ∧
    axIdVals (lxw_chart_assemble_xml_file c).2
      = [toString c.axis_id_1, toString c.axis_id_2,
         toString c.axis_id_1, toString c.axis_id_2] ∧
    crossAxVals (lxw_chart_assemble_xml_file c).2
      = [toString c.axis_id_2, toString c.axis_id_1] := by
  obtain ⟨id, a1, a2, si, ser⟩ := c
  simp only at h1 h2
  subst h2
  have e1 : ensuredA1 ⟨id, a2, a2, si, ser⟩ = a2 := by
    simp only [ensuredA1]
    split
    · exact h1.symm
    · rfl
  have e2 : ensuredA2 ⟨id, a2, a2, si, ser⟩ = a2 := by
    simp only [ensuredA2]
    split
    · exact e1
    · rfl
  refine ⟨?_, ?_, ?_, ?_, ?_⟩
  · by_cases hz : a2 = 0 <;>
      simp_all [_chart_write_axis_ids, _chart_add_axis_ids, _chart_write_axis_id]
  · rw [assemble_eq]
    exact e1
  · rw [assemble_eq]
    exact e2
  · rw [axIdVals_assemble, e1, e2]
  · rw [crossAxVals_assemble, e1, e2]

/-- C7 witness: the theorem applied at a chart with the cached pair in
place. -/
theorem chart_axis_ids_cached_idempotent_witness :
    _chart_write_axis_ids axChartC =
      (axChartC, [XmlEvent.emptyTag "c:axId" [("val", toString axChartC.axis_id_1)],
                  XmlEvent.emptyTag "c:axId" [("val", toString axChartC.axis_id_2)]]) ∧
    (lxw_chart_assemble_xml_file axChartC).1.axis_id_1 = axChartC.axis_id_1 ∧
    (lxw_chart_assemble_xml_file axChartC).1.axis_id_2 = axChartC.axis_id_2 ∧
    axIdVals (lxw_chart_assemble_xml_file axChartC).2
      = [toString axChartC.axis_id_1, toString axChartC.axis_id_2,
         toString axChartC.axis_id_1, toString axChartC.axis_id_2] ∧
    crossAxVals (lxw_chart_assemble_xml_file axChartC).2
      = [toString axChartC.axis_id_2, toString axChartC.axis_id_1] :=
  chart_axis_ids_cached_idempotent axChartC (by decide) rfl

/-- C8: one assembly pass never mutates the series store or the chart id:
afterwards `id` and the whole series list are unchanged, the axis-id pair
is unchanged when it was already computed (and is filled from the chart id
on a first pass), and the only other changed field is the series counter,
advanced once per series (uint16). -/
theorem chart_assemble_frame_effect (c : lxw_chart) :
    (lxw_chart_assemble_xml_file c).1.id = c.id ∧
    (lxw_chart_assemble_xml_file c).1.series = c.series ∧
    (lxw_chart_assemble_xml_file c).1.axis_id_1 =
      (if c.axis_id_1 = 0 then ((50010000 + c.id) % 4294967296 + 1) % 4294967296
       else c.axis_id_1) ∧
    (lxw_chart_assemble_xml_file c).1.axis_id_2 =
      (if c.axis_id_1 = 0 then ((50010000 + c.id) % 4294967296 + 1) % 4294967296
       else c.axis_id_2) ∧
    (lxw_chart_assemble_xml_file c).1.series_index =
      (if c.series = [] then c.series_index
       else (c.series_index + c.series.length) % 65536) := by
  rw [assemble_eq]
  refine ⟨rfl, rfl, rfl, ?_, ?_⟩
  · by_cases hz : c.axis_id_1 = 0 <;> simp [ensuredA2, ensuredA1, hz]
  · show advSI c.series_index c.series = _
    rw [advSI_eq]

/-- C9: the claim states `free` is a no-op on NULL and otherwise releases
every series node together with its two strings, then the container and
the chart, so that nothing leaks.  The NULL and empty-chart parts hold, but
the free loop releases only the two strings of each node, never the node
itself: after one successful add-series, the node allocation is absent from
the set of objects `lxw_chart_free` passes to `free` — a leak. -/
theorem chart_free_leaks_series_node :
    lxw_chart_free_frees none = [] ∧
    (lxw_chart_new_alloc true true).2.1
      = [AllocTag.chartStruct, AllocTag.seriesListStruct] ∧
    lxw_chart_free_frees (lxw_chart_new_alloc true true).1
      = [AllocTag.seriesListStruct, AllocTag.chartStruct] ∧
    (lxw_chart_new_alloc true false).2.1 = [AllocTag.chartStruct] ∧
    (lxw_chart_new_alloc true false).2.2 = [AllocTag.chartStruct] ∧
    AllocTag.seriesNode 0 ∈
      (chart_add_series_alloc true true true { series := some [] }
        (some { range := "Sheet1!$A$1:$A$3", sheetname := "Sheet1" })).2.2 ∧
    AllocTag.seriesNode 0 ∉
      lxw_chart_free_frees (some (chart_add_series_alloc true true true
        { series := some [] }
        (some { range := "Sheet1!$A$1:$A$3", sheetname := "Sheet1" })).2.1) := by
  decide

/-- C10: assembling a chart with zero series still emits the complete
document: the full fixed head (through `c:barDir`/`c:grouping`) is followed
directly by the axis-id references and the entire fixed tail (both axis
blocks, legend, plot-visibility flag, print settings, closes) — nothing
outside the series loop is skipped. -/
theorem chart_assemble_empty_series_complete_doc (c : lxw_chart)
    (h : c.series = []) :
    (lxw_chart_assemble_xml_file c).2
      = docHead ++ docTail (ensuredA1 c) (ensuredA2 c) := by
  rw [assemble_eq, h]
  simp [serBlocks]

/-- C10 witness: the theorem applied at a fresh empty chart. -/
theorem chart_assemble_empty_series_complete_doc_witness :
    (lxw_chart_assemble_xml_file lxw_chart_new).2
      = docHead ++ docTail (ensuredA1 lxw_chart_new) (ensuredA2 lxw_chart_new) :=
  chart_assemble_empty_series_complete_doc lxw_chart_new rfl
